import Mathlib

/-!
Verification of the YodaRT fragment: the `@yoda/audio` volume manager
(src/packages/@yoda/audio/index.js) and the `@yoda/util` path/pick/startsWith
helpers (whose unit tests are in the repository; the helpers themselves are
modelled from the specification).

Modelling conventions for the JavaScript source:
* JS numbers are modelled as `JsNum`: either `NaN` or a rational (every finite
  IEEE double is a rational; infinities do not occur in any claim and are
  clamped away by the code paths considered).
* The persistent property store holds strings that the module only ever
  observes through `parseInt`; a stored string is therefore modelled by its
  `parseInt` image, `Option Int` (`none` = parses to `NaN`, i.e. unset or
  unparseable).  Writing an integral number `n` stores a string that parses
  back to `n`; writing `NaN` stores the string "NaN", which parses to `NaN`.
* Mutation is explicit state passing on `AudioWorld`; a thrown JS exception is
  the `some err` component of a result, paired with the state at throw time
  (earlier effects are kept, as with real JS mutation).
* Calls into the native backend are recorded in `nativeLog` in call order.
* `AudioBase` is one JS object holding both the numeric-keyed stream
  descriptors and the numeric `DEFAULT_VOLUME` member, and it inherits
  `Object.prototype`.  A property read `AudioBase[v]` is modelled by
  `baseMember`: the registered descriptors, then the `DEFAULT_VOLUME` member,
  then the standard `Object.prototype` member names (within the own
  properties the order is unobservable, since descriptor keys are numeric
  strings and never equal `DEFAULT_VOLUME`).  Reading `.key`/`.id`/`.readonly`
  off a non-descriptor member yields JS `undefined` without throwing; the
  string-keyed property store coerces an `undefined` key to `"undefined"`,
  and a native call with an `undefined` id is logged as such.
-/

namespace Yoda

/-- A JavaScript number: `NaN` or a finite value (modelled as a rational). -/
inductive JsNum where
  | nan : JsNum
  | num (q : ℚ) : JsNum
deriving DecidableEq, Repr

/-- A (non-array) JavaScript value, as passed to the audio module's APIs. -/
inductive JsVal where
  | undef : JsVal
  | null : JsVal
  | bool (b : Bool) : JsVal
  | jnum (n : JsNum) : JsVal
  | str (s : String) : JsVal
deriving DecidableEq, Repr

/-- JS truthiness: `undefined`, `null`, `false`, `0`, `NaN` and `""` are falsy. -/
def truthy : JsVal → Bool
  | JsVal.undef => false
  | JsVal.null => false
  | JsVal.bool b => b
  | JsVal.jnum JsNum.nan => false
  | JsVal.jnum (JsNum.num q) => q != 0
  | JsVal.str s => s != ""

/-- `v === null` (strict equality against the `null` literal). -/
def isNullV : JsVal → Bool
  | JsVal.null => true
  | _ => false

/-- `v === undefined` (strict equality against `undefined`). -/
def isUndefV : JsVal → Bool
  | JsVal.undef => true
  | _ => false

/-- `typeof v === 'number'` (`NaN` is a number). -/
def isNumberV : JsVal → Bool
  | JsVal.jnum _ => true
  | _ => false

/-- JS ToString for a number used as a property key.  Exact on integral values
(decimal digits, with a leading minus for negatives), which is the only case
reached by the module's catalog keys. -/
def ratKeyString (q : ℚ) : String :=
  if q.den = 1 then toString q.num else toString q

/-- JS ToString of a value used as a property key (`obj[v]` coerces `v`). -/
def jsKeyString : JsVal → String
  | JsVal.undef => "undefined"
  | JsVal.null => "null"
  | JsVal.bool true => "true"
  | JsVal.bool false => "false"
  | JsVal.jnum JsNum.nan => "NaN"
  | JsVal.jnum (JsNum.num q) => ratKeyString q
  | JsVal.str s => s

/-- `Math.floor`: identity on `NaN`, floor on finite values. -/
def jsFloor : JsNum → JsNum
  | JsNum.nan => JsNum.nan
  | JsNum.num q => JsNum.num (⌊q⌋ : ℚ)

/-- `Math.min` on two JS numbers (`NaN` propagates). -/
def jsMin : JsNum → JsNum → JsNum
  | JsNum.nan, _ => JsNum.nan
  | JsNum.num _, JsNum.nan => JsNum.nan
  | JsNum.num a, JsNum.num b => JsNum.num (min a b)

/-- `Math.max` on two JS numbers (`NaN` propagates). -/
def jsMax : JsNum → JsNum → JsNum
  | JsNum.nan, _ => JsNum.nan
  | JsNum.num _, JsNum.nan => JsNum.nan
  | JsNum.num a, JsNum.num b => JsNum.num (max a b)

/-- The clamping in `AudioManager.setVolume`:
`if (vol > 100) vol = 100 else if (vol < 0) vol = 0`.
Both comparisons are false on `NaN`, so `NaN` passes through unchanged. -/
def jsClamp : JsNum → JsNum
  | JsNum.nan => JsNum.nan
  | JsNum.num q => if q > 100 then JsNum.num 100 else if q < 0 then JsNum.num 0 else JsNum.num q

/-- One catalog entry created by `defineStream` (`AudioBase[id]`).
`readonly: options.readonly || undefined` is modelled as a `Bool` since the
module only ever tests its truthiness. -/
structure StreamDesc where
  id : Nat
  name : String
  readonly : Bool
deriving DecidableEq, Repr

/-- The derived persistence key: the getter `audio.volume.<name>`. -/
def StreamDesc.key (s : StreamDesc) : String := "audio.volume." ++ s.name

/-- A JavaScript exception thrown by the audio module. -/
inductive JsError where
  | typeError (msg : String) : JsError
  | error (msg : String) : JsError
  | rangeError (msg : String) : JsError
deriving DecidableEq, Repr

/-- A call forwarded to the native backend (`audio.node`).
`setStreamVolumeNoId` records `native.setStreamVolume(undefined, vol)`, which
the source performs when `stream.id` is read off a non-descriptor
`AudioBase` member. -/
inductive NativeCall where
  | setStreamVolume (id : Nat) (vol : JsNum) : NativeCall
  | setStreamVolumeNoId (vol : JsNum) : NativeCall
  | setCurveForVolume (idx : Nat) (value : JsVal) : NativeCall
deriving DecidableEq, Repr

/-- The mutable world of the audio module: the stream catalog (`AudioBase`,
string-keyed as in JS, newest binding first), the module-level
`DEFAULT_VOLUME`, the property store (modelled by `parseInt` images, newest
binding first), the log of `property.set` calls and the log of native calls. -/
structure AudioWorld where
  catalog : List (String × StreamDesc)
  defaultVolume : Int
  props : List (String × Option Int)
  setLog : List (String × JsNum)
  nativeLog : List NativeCall
deriving DecidableEq, Repr

/-- First binding for a key in an association list (JS assignment shadows). -/
def alist {α : Type} : List (String × α) → String → Option α
  | [], _ => none
  | (k, v) :: rest, key => if key = k then some v else alist rest key

/-- `parseInt(property.get(key, 'persist'))`, as an `Option Int`
(`none` exactly when the parse yields `NaN`). -/
def lookupProp (props : List (String × Option Int)) (key : String) : Option Int :=
  match alist props key with
  | none => none
  | some v => v

/-- The stream-descriptor registrations of `AudioBase` (the entries written
by `defineStream`), looked up under the JS string coercion of `v`. -/
def lookupCat (w : AudioWorld) (v : JsVal) : Option StreamDesc :=
  alist w.catalog (jsKeyString v)

/-- A member readable off the `AudioBase` object: a stream descriptor, the
numeric `DEFAULT_VOLUME` member, or an inherited `Object.prototype` member
(a function or object, always truthy). -/
inductive BaseMember where
  | streamM (s : StreamDesc) : BaseMember
  | numberM (n : Int) : BaseMember
  | protoM : BaseMember
deriving DecidableEq, Repr

/-- The standard `Object.prototype` member names `AudioBase` inherits. -/
def protoNames : List String :=
  ["constructor", "hasOwnProperty", "isPrototypeOf", "propertyIsEnumerable",
   "toLocaleString", "toString", "valueOf", "__defineGetter__", "__defineSetter__",
   "__lookupGetter__", "__lookupSetter__", "__proto__"]

/-- `AudioBase[k]` in full: the registered descriptors and the
`DEFAULT_VOLUME` member are own properties (their relative order is
unobservable: descriptor keys are numeric strings), own properties shadow
`Object.prototype`, and anything else reads as `undefined` (`none`). -/
def baseMember (w : AudioWorld) (k : String) : Option BaseMember :=
  match alist w.catalog k with
  | some s => some (BaseMember.streamM s)
  | none =>
    if k = "DEFAULT_VOLUME" then some (BaseMember.numberM w.defaultVolume)
    else if k ∈ protoNames then some BaseMember.protoM
    else none

/-- JS truthiness of the value read off `AudioBase` (the `!AudioBase[type]`
guard): `undefined` is falsy, a descriptor object or prototype member is
truthy, the `DEFAULT_VOLUME` number is truthy iff nonzero. -/
def memberTruthy : Option BaseMember → Bool
  | none => false
  | some (BaseMember.streamM _) => true
  | some (BaseMember.numberM n) => n != 0
  | some BaseMember.protoM => true

/-- The `parseInt` image of the string stored for a (floored) volume:
an integral value parses back to itself, `"NaN"` parses to `NaN`. -/
def toStored : JsNum → Option Int
  | JsNum.nan => none
  | JsNum.num q => some ⌊q⌋

/-- `_storeVolume(stream, vol)`: floors `vol`, persists it under the stream's
key and forwards it to `native.setStreamVolume`. -/
def storeVolume (w : AudioWorld) (s : StreamDesc) (vol : JsNum) : AudioWorld :=
  let f := jsFloor vol
  { w with
    props := (s.key, toStored f) :: w.props
    setLog := w.setLog ++ [(s.key, f)]
    nativeLog := w.nativeLog ++ [NativeCall.setStreamVolume s.id f] }

/-- `_storeVolume(member, vol)` when `member` is a non-descriptor `AudioBase`
member (the `DEFAULT_VOLUME` number or a prototype member): `member.key` and
`member.id` read as `undefined`, so the store write goes to the key
`"undefined"` (the string-keyed store coerces its key) and the native call is
made with an `undefined` id. -/
def storeVolumeOther (w : AudioWorld) (vol : JsNum) : AudioWorld :=
  let f := jsFloor vol
  { w with
    props := ("undefined", toStored f) :: w.props
    setLog := w.setLog ++ [("undefined", f)]
    nativeLog := w.nativeLog ++ [NativeCall.setStreamVolumeNoId f] }

/-- Native stream-id constants exported by `audio.node`.  Their concrete
values are defined by the native binding (not part of this fragment); they are
modelled as distinct naturals, which is all the module relies on. -/
def idAudio : Nat := 0

def idTts : Nat := 1

def idRing : Nat := 2

def idVoiceCall : Nat := 3

def idPlayback : Nat := 4

def idAlarm : Nat := 5

def idSystem : Nat := 6

/-- The key under which `defineStream` registers a stream id
(`AudioBase[id]` coerces the numeric id to a string). -/
def idKey (id : Nat) : String := ratKeyString (id : ℚ)

/-- The descriptor object built by `defineStream`. -/
def mkDesc (id : Nat) (name : String) (ro : Bool) : StreamDesc :=
  { id := id, name := name, readonly := ro }

/-- `defineStream(id, name, options)`: registers `AudioBase[id]` and, when the
persisted volume is absent/unparseable (`_getVolume(stream) === false`),
stores `AudioBase.DEFAULT_VOLUME` for it. -/
def defineStream (w : AudioWorld) (id : Nat) (name : String) (ro : Bool) : AudioWorld :=
  match lookupProp w.props (mkDesc id name ro).key with
  | none =>
    storeVolume { w with catalog := (idKey id, mkDesc id name ro) :: w.catalog }
      (mkDesc id name ro) (JsNum.num (w.defaultVolume : ℚ))
  | some _ => { w with catalog := (idKey id, mkDesc id name ro) :: w.catalog }

/-- The world at module load, before `init()` runs: empty catalog, and
`DEFAULT_VOLUME = _getNumber('audio.volume.default', 60)`. -/
def initialWorld (props0 : List (String × Option Int)) : AudioWorld :=
  { catalog := []
    defaultVolume := (lookupProp props0 "audio.volume.default").getD 60
    props := props0
    setLog := []
    nativeLog := [] }

/-- The body of the module's `init()` IIFE: the seven `defineStream` calls. -/
def runDefineStreams (w : AudioWorld) : AudioWorld :=
  defineStream
    (defineStream
      (defineStream
        (defineStream
          (defineStream
            (defineStream
              (defineStream w idAudio "audio" false)
              idTts "tts" false)
            idRing "ring" false)
          idVoiceCall "voiceCall" false)
        idPlayback "playback" false)
      idAlarm "alarm" false)
    idSystem "system" true

/-- Module load followed by `init()`. -/
def initAudio (props0 : List (String × Option Int)) : AudioWorld :=
  runDefineStreams (initialWorld props0)

/-- A result of a stateful call: the world reached (a thrown exception keeps
the mutations made before the throw) and the exception, if one was thrown. -/
abbrev AudioResult := AudioWorld × Option JsError

/-- The body of `AudioManager.setVolume(type, vol)` after the
`arguments.length` rewrite (a one-argument call arrives with `type = null`).
The broadcast branch re-enters the function; `fuel` bounds that re-entry
(broadcast sub-calls pass a numeric `type`, so depth 2 suffices). -/
def setVolumeAux : Nat → AudioWorld → JsVal → JsVal → AudioResult
  | 0, w, _, _ => (w, some (JsError.error "call depth exceeded"))
  | Nat.succ fuel, w, type, vol =>
    if truthy type && !(memberTruthy (baseMember w (jsKeyString type))) then
      (w, some (JsError.typeError "invalid stream type"))
    else if !(isNumberV vol) then
      (w, some (JsError.typeError "vol must be a number"))
    else
      match vol with
      | JsVal.jnum q =>
        let q1 := jsClamp q
        if isNullV type then
          match setVolumeAux fuel w (JsVal.jnum (JsNum.num (idAudio : ℚ))) (JsVal.jnum q1) with
          | (w1, some e) => (w1, some e)
          | (w1, none) =>
            match setVolumeAux fuel w1 (JsVal.jnum (JsNum.num (idPlayback : ℚ))) (JsVal.jnum q1) with
            | (w2, some e) => (w2, some e)
            | (w2, none) =>
              match setVolumeAux fuel w2 (JsVal.jnum (JsNum.num (idTts : ℚ))) (JsVal.jnum q1) with
              | (w3, some e) => (w3, some e)
              | (w3, none) =>
                setVolumeAux fuel w3 (JsVal.jnum (JsNum.num (idRing : ℚ))) (JsVal.jnum q1)
        else
          match baseMember w (jsKeyString type) with
          | none =>
            -- `var stream = AudioBase[type]` yields `undefined` and the
            -- subsequent `stream.readonly` read throws at runtime.
            (w, some (JsError.typeError "cannot read property readonly of undefined"))
          | some (BaseMember.streamM s) =>
            if s.readonly then
              (w, some (JsError.error ("stream type \"" ++ s.name ++ "\" is readonly")))
            else
              (storeVolume w s q1, none)
          | some (BaseMember.numberM _) =>
            -- `member.readonly` reads as `undefined` (falsy), so the code
            -- proceeds to `_storeVolume` with undefined key/id.
            (storeVolumeOther w q1, none)
          | some BaseMember.protoM => (storeVolumeOther w q1, none)
      | _ => (w, some (JsError.typeError "vol must be a number"))

/-- `AudioManager.setVolume(type, vol)` called with two arguments. -/
def setVolume2 (w : AudioWorld) (type vol : JsVal) : AudioResult :=
  setVolumeAux 2 w type vol

/-- `AudioManager.setVolume(vol)` called with one argument:
`vol = type; type = null`. -/
def setVolume1 (w : AudioWorld) (vol : JsVal) : AudioResult :=
  setVolumeAux 2 w JsVal.null vol

/-- `_getVolume(stream)` applied to an `AudioBase` read: `undefined` makes it
dereference `undefined.key` (a runtime type error); a descriptor reads its
persisted value (`false` when the parse is `NaN`); a non-descriptor member has
`member.key = undefined`, so the store is read at the coerced key
`"undefined"`. -/
def volumeOf (w : AudioWorld) : Option BaseMember → Except JsError JsVal
  | none => Except.error (JsError.typeError "cannot read property key of undefined")
  | some (BaseMember.streamM s) =>
    match lookupProp w.props s.key with
    | none => Except.ok (JsVal.bool false)
    | some v => Except.ok (JsVal.jnum (JsNum.num (v : ℚ)))
  | some (BaseMember.numberM _) =>
    match lookupProp w.props "undefined" with
    | none => Except.ok (JsVal.bool false)
    | some v => Except.ok (JsVal.jnum (JsNum.num (v : ℚ)))
  | some BaseMember.protoM =>
    match lookupProp w.props "undefined" with
    | none => Except.ok (JsVal.bool false)
    | some v => Except.ok (JsVal.jnum (JsNum.num (v : ℚ)))

/-- `AudioManager.getVolume(stream)`; a missing argument arrives as
`undefined`.  The `!AudioBase[stream]` guard tests the truthiness of the
member read off `AudioBase`. -/
def getVolume (w : AudioWorld) (stream : JsVal) : Except JsError JsVal :=
  if isUndefV stream = false then
    if memberTruthy (baseMember w (jsKeyString stream)) = false then
      Except.error (JsError.typeError "invalid stream type")
    else
      volumeOf w (baseMember w (jsKeyString stream))
  else
    volumeOf w (baseMember w (jsKeyString (JsVal.jnum (JsNum.num (idTts : ℚ)))))

/-- The value returned by a JS shaper function: either an array
(`Array.isArray` holds) or any other value. -/
inductive ShaperRet where
  | arrRet (xs : List JsVal) : ShaperRet
  | nonArr (v : JsVal) : ShaperRet
deriving DecidableEq, Repr

/-- `shape[i]`: a JS array read beyond the populated entries yields
`undefined`. -/
def curveElt (xs : List JsVal) (i : Nat) : JsVal :=
  (xs.get? i).getD JsVal.undef

/-- `AudioManager.LINEAR_RAMP`: `shape[i] = i` for `0 <= i <= len`. -/
def LINEAR_RAMP (len : Int) : ShaperRet :=
  if len < 0 then ShaperRet.arrRet []
  else ShaperRet.arrRet ((List.range (len.toNat + 1)).map (fun i => JsVal.jnum (JsNum.num (i : ℚ))))

/-- The `for (var i = 0; i <= max; i++)` loop of `setVolumeShaper`: each
iteration calls `native.setCurveForVolume(i, shape[i])` and throws a
`RangeError` when the backend rejects the point.  `accept` is the backend's
(external) accept/reject behaviour. -/
def applyCurve (accept : Nat → JsVal → Bool) (xs : List JsVal) :
    AudioWorld → List Nat → AudioResult
  | w, [] => (w, none)
  | w, i :: rest =>
    let v := curveElt xs i
    let w1 : AudioWorld := { w with nativeLog := w.nativeLog ++ [NativeCall.setCurveForVolume i v] }
    if accept i v then applyCurve accept xs w1 rest
    else (w1, some (JsError.rangeError "out of range when set volume shape."))

/-- `AudioManager.setVolumeShaper(shaper)`: invokes `shaper(100)`, requires an
array, then applies curve points for indices `0..100` (on success the JS
function returns `true`; the return value is not modelled). -/
def setVolumeShaper (accept : Nat → JsVal → Bool) (w : AudioWorld)
    (shaper : Int → ShaperRet) : AudioResult :=
  match shaper 100 with
  | ShaperRet.arrRet xs => applyCurve accept xs w (List.range 101)
  | ShaperRet.nonArr _ =>
    (w, some (JsError.error "shaper function should return an array with 100 elements."))

/-!
## The `@yoda/util` `_` helpers

Only the unit tests of these helpers are part of the fragment
(src/unnamed/part_000); the implementation is not under src/.  The
definitions below are therefore modelled from the specification (spec.md
section 4.1) and checked against the test fixtures.
-/

/-- A JSON-like JavaScript value: the nested containers the PathResolver
walks (mappings, sequences) and the scalars it stops at. -/
inductive JVal where
  | undef : JVal
  | null : JVal
  | bool (b : Bool) : JVal
  | num (q : ℚ) : JVal
  | str (s : String) : JVal
  | obj (fields : List (String × JVal)) : JVal
  | arr (xs : List JVal) : JVal

/-- First binding for a key among an object's fields. -/
def fieldLookup (k : String) : List (String × JVal) → Option JVal
  | [] => none
  | (k1, v) :: rest => if k = k1 then some v else fieldLookup k rest

/-- `null` or `undefined` ("no value"). -/
def isNilJ : JVal → Bool
  | JVal.undef => true
  | JVal.null => true
  | _ => false

/-- The `undefined`-class "no value" (as opposed to explicit `null`). -/
def isUndefJ : JVal → Bool
  | JVal.undef => true
  | _ => false

def isStringJ : JVal → Bool
  | JVal.str _ => true
  | _ => false

/-- Decimal digits of a path segment, as a sequence index (`none` when the
segment is not a plain number). -/
def parseIndex (cs : List Char) : Option Nat :=
  if cs = [] then none
  else
    cs.foldl
      (fun acc c =>
        match acc with
        | none => none
        | some n => if '0' ≤ c ∧ c ≤ '9' then some (n * 10 + (c.toNat - 48)) else none)
      (some 0)

/-- Split a character list on `.` separators. -/
def splitDots : List Char → List (List Char)
  | [] => [[]]
  | c :: cs =>
    let r := splitDots cs
    if c = '.' then [] :: r
    else
      match r with
      | [] => [[c]]
      | h :: t => (c :: h) :: t

/-- JS ToString of a scalar value, for a non-string path argument. -/
def jvalKeyString : JVal → String
  | JVal.undef => "undefined"
  | JVal.null => "null"
  | JVal.bool true => "true"
  | JVal.bool false => "false"
  | JVal.num q => ratKeyString q
  | JVal.str s => s
  | JVal.obj _ => "object Object"
  | JVal.arr _ => ""

/-- Modelled from the spec: the path argument of `get` is "either a single
key/index or a dot-delimited sequence of keys/indices"; a string is split on
dots, any other value is a single segment. -/
def pathSegments : JVal → List String
  | JVal.str s => (splitDots s.data).map (fun l => String.mk l)
  | v => [jvalKeyString v]

/-- Reading one property in JS: throws a `TypeError` on a `null`/`undefined`
receiver, yields the field (or `undefined`) on containers, and `undefined` on
scalars. -/
def jsIndex : JVal → String → Except String JVal
  | JVal.undef, _ => Except.error "TypeError: cannot read property of undefined"
  | JVal.null, _ => Except.error "TypeError: cannot read property of null"
  | JVal.obj fs, k => Except.ok ((fieldLookup k fs).getD JVal.undef)
  | JVal.arr xs, k =>
    Except.ok (match parseIndex k.data with
      | some i => (xs.get? i).getD JVal.undef
      | none => JVal.undef)
  | _, _ => Except.ok JVal.undef

/-- Modelled from the spec: the segment-by-segment walk of `get`.  A `null`
node stops the walk and yields `null` (even with segments remaining); a
scalar node with segments remaining stops and yields "no value"; containers
are stepped into. -/
def walk : List String → JVal → Except String JVal
  | [], cur => Except.ok cur
  | k :: rest, cur =>
    match cur with
    | JVal.null => Except.ok JVal.null
    | JVal.obj fs =>
      match jsIndex (JVal.obj fs) k with
      | Except.ok v => walk rest v
      | Except.error e => Except.error e
    | JVal.arr xs =>
      match jsIndex (JVal.arr xs) k with
      | Except.ok v => walk rest v
      | Except.error e => Except.error e
    | _ => Except.ok JVal.undef

/-- Modelled from the spec: `get(container, path, defaultValue)`.  A nil
container yields the default; otherwise the walk's result is returned, with
the `undefined`-class "no value" (and only it) replaced by the default. -/
def get (c p d : JVal) : Except String JVal :=
  if isNilJ c then Except.ok d
  else
    match walk (pathSegments p) c with
    | Except.ok r => Except.ok (if isUndefJ r then d else r)
    | Except.error e => Except.error e

/-- Modelled from the spec: `pick(container, keys...)` copies the listed
top-level keys; a nil container is returned unchanged. -/
def pick (c : JVal) (ks : List String) : JVal :=
  match c with
  | JVal.undef => c
  | JVal.null => c
  | JVal.obj fs => JVal.obj (ks.filterMap (fun k => (fieldLookup k fs).map (fun v => (k, v))))
  | _ => JVal.obj []

def isPrefixList : List Char → List Char → Bool
  | [], _ => true
  | _ :: _, [] => false
  | a :: as, b :: bs => a = b && isPrefixList as bs

/-- Modelled from the spec: `startsWith(value, prefixArg)` is `false` for any
non-string `value` and otherwise a literal prefix match. -/
def startsWith (v pre : JVal) : Bool :=
  match v with
  | JVal.str s => isPrefixList (jvalKeyString pre).data s.data
  | _ => false

/-!
## Helper lemmas
-/

theorem jsClamp_idem (v : JsNum) : jsClamp (jsClamp v) = jsClamp v := by
  cases v with
  | nan => rfl
  | num q =>
    simp only [jsClamp]
    by_cases h1 : q > 100
    · simp [h1]
    · by_cases h2 : q < 0
      · simp [h1, h2]
      · simp [h1, h2]

theorem jsFloor_jsClamp (v : JsNum) :
    jsFloor (jsClamp v) = jsMin (JsNum.num 100) (jsMax (JsNum.num 0) (jsFloor v)) := by
  cases v with
  | nan => rfl
  | num q =>
    simp only [jsClamp, jsFloor, jsMin, jsMax, JsNum.num.injEq]
    by_cases h1 : q > 100
    · simp only [h1, if_true, jsFloor, jsMin, jsMax, JsNum.num.injEq]
      have hq : (100 : ℤ) ≤ ⌊q⌋ := Int.le_floor.mpr (by exact_mod_cast h1.le)
      have hq2 : (100 : ℚ) ≤ (⌊q⌋ : ℚ) := by exact_mod_cast hq
      rw [max_eq_right (le_trans (by norm_num) hq2), min_eq_left hq2]
      norm_num
    · by_cases h2 : q < 0
      · simp only [h1, h2, if_true, if_false, jsFloor, jsMin, jsMax, JsNum.num.injEq]
        have hq : ⌊q⌋ < 0 := Int.floor_lt.mpr (by exact_mod_cast h2)
        have hq2 : (⌊q⌋ : ℚ) ≤ 0 := by exact_mod_cast hq.le
        rw [max_eq_left hq2, min_eq_right (by norm_num)]
        norm_num
      · simp only [h1, h2, if_false, jsFloor, jsMin, jsMax, JsNum.num.injEq]
        push_neg at h1 h2
        have hlo : (0 : ℚ) ≤ (⌊q⌋ : ℚ) := by
          exact_mod_cast (Int.le_floor.mpr (by exact_mod_cast h2) : (0:ℤ) ≤ ⌊q⌋)
        have hhi : (⌊q⌋ : ℚ) ≤ 100 := le_trans (Int.floor_le q) h1
        rw [max_eq_right hlo, min_eq_right hhi]

theorem storeVolume_catalog (w : AudioWorld) (s : StreamDesc) (v : JsNum) :
    (storeVolume w s v).catalog = w.catalog := rfl

theorem storeVolume_defaultVolume (w : AudioWorld) (s : StreamDesc) (v : JsNum) :
    (storeVolume w s v).defaultVolume = w.defaultVolume := rfl

theorem lookupCat_storeVolume (w : AudioWorld) (s : StreamDesc) (v : JsNum) (t : JsVal) :
    lookupCat (storeVolume w s v) t = lookupCat w t := rfl

theorem defineStream_catalog (w : AudioWorld) (id : Nat) (name : String) (ro : Bool) :
    (defineStream w id name ro).catalog = (idKey id, mkDesc id name ro) :: w.catalog := by
  unfold defineStream
  split <;> rfl

theorem defineStream_defaultVolume (w : AudioWorld) (id : Nat) (name : String) (ro : Bool) :
    (defineStream w id name ro).defaultVolume = w.defaultVolume := by
  unfold defineStream
  split <;> rfl

theorem lookupProp_cons (k : String) (v : Option Int) (rest : List (String × Option Int))
    (key : String) :
    lookupProp ((k, v) :: rest) key = if key = k then v else lookupProp rest key := by
  simp only [lookupProp, alist]
  by_cases h : key = k <;> simp [h]

/-- `defineStream` ensures a parseable persisted value under its own key. -/
theorem defineStream_ensures (w : AudioWorld) (id : Nat) (name : String) (ro : Bool) :
    (lookupProp (defineStream w id name ro).props (mkDesc id name ro).key).isSome = true := by
  unfold defineStream
  split
  · simp [storeVolume, lookupProp_cons, toStored, jsFloor, StreamDesc.key, mkDesc]
  · next heq =>
      simp only [mkDesc, StreamDesc.key] at heq ⊢
      simp [heq]

/-- `defineStream` does not touch persisted values under other keys. -/
theorem defineStream_preserves (w : AudioWorld) (id : Nat) (name : String) (ro : Bool)
    (k : String) (hk : k ≠ (mkDesc id name ro).key) :
    lookupProp (defineStream w id name ro).props k = lookupProp w.props k := by
  simp only [mkDesc, StreamDesc.key] at hk
  unfold defineStream
  split
  · simp [storeVolume, lookupProp_cons, StreamDesc.key, mkDesc, hk]
  · rfl

theorem defineStream_isSome_mono (w : AudioWorld) (id : Nat) (name : String) (ro : Bool)
    (k : String) (h : (lookupProp w.props k).isSome = true) :
    (lookupProp (defineStream w id name ro).props k).isSome = true := by
  by_cases hk : k = (mkDesc id name ro).key
  · subst hk; exact defineStream_ensures w id name ro
  · rw [defineStream_preserves w id name ro k hk]; exact h

/-- When the persisted value already parses, `defineStream` only registers the
catalog entry: the property store and both logs are untouched. -/
theorem defineStream_noop (w : AudioWorld) (id : Nat) (name : String) (ro : Bool)
    (h : (lookupProp w.props (mkDesc id name ro).key).isSome = true) :
    defineStream w id name ro =
      { w with catalog := (idKey id, mkDesc id name ro) :: w.catalog } := by
  unfold defineStream
  split
  · next heq =>
      simp only [mkDesc, StreamDesc.key] at heq h
      rw [heq] at h
      simp at h
  · rfl

/-- A registered stream descriptor is what `AudioBase[t]` reads (own
registrations shadow the other members). -/
theorem baseMember_of_lookup (w : AudioWorld) (t : JsVal) (s : StreamDesc)
    (hl : lookupCat w t = some s) :
    baseMember w (jsKeyString t) = some (BaseMember.streamM s) := by
  unfold lookupCat at hl
  unfold baseMember
  rw [hl]

theorem baseMember_storeVolume (w : AudioWorld) (s : StreamDesc) (v : JsNum) (k : String) :
    baseMember (storeVolume w s v) k = baseMember w k := rfl

theorem baseMember_eq_none (w : AudioWorld) (k : String) (hc : alist w.catalog k = none)
    (hd : k ≠ "DEFAULT_VOLUME") (hp : k ∉ protoNames) :
    baseMember w k = none := by
  unfold baseMember
  rw [hc, if_neg hd, if_neg hp]

/-- A falsy, non-`null` stream argument outside the catalog reads no
`AudioBase` member at all: its coerced keys (`"undefined"`, `"false"`,
`"NaN"`, `"0"`, `""`) are neither `DEFAULT_VOLUME` nor `Object.prototype`
names. -/
theorem baseMember_falsy (w : AudioWorld) (t : JsVal) (ht : truthy t = false)
    (hnn : isNullV t = false) (hl : lookupCat w t = none) :
    baseMember w (jsKeyString t) = none := by
  unfold lookupCat at hl
  cases t with
  | undef => exact baseMember_eq_none w _ hl (by decide) (by decide)
  | null => simp [isNullV] at hnn
  | bool b =>
    cases b with
    | false => exact baseMember_eq_none w _ hl (by decide) (by decide)
    | true => simp [truthy] at ht
  | jnum n =>
    cases n with
    | nan => exact baseMember_eq_none w _ hl (by decide) (by decide)
    | num q =>
      have hq : q = 0 := by simpa [truthy, bne_eq_false_iff_eq] using ht
      subst hq
      exact baseMember_eq_none w _ hl (by decide) (by decide)
  | str s =>
    have hs : s = "" := by simpa [truthy, bne_eq_false_iff_eq] using ht
    subst hs
    exact baseMember_eq_none w _ hl (by decide) (by decide)

/-- A two-argument `setVolume` call on a known stream skips the invalid-stream
guard, clamps, and either rejects a readonly stream or stores the clamped
volume. -/
theorem setVolumeAux_known (fuel : Nat) (w : AudioWorld) (t : JsVal) (s : StreamDesc)
    (q : JsNum) (hnn : isNullV t = false) (hl : lookupCat w t = some s) :
    setVolumeAux (fuel + 1) w t (JsVal.jnum q) =
      if s.readonly then
        (w, some (JsError.error ("stream type \"" ++ s.name ++ "\" is readonly")))
      else (storeVolume w s (jsClamp q), none) := by
  have hb := baseMember_of_lookup w t s hl
  simp only [setVolumeAux, hb, hnn, isNumberV, memberTruthy, Bool.not_true, Bool.and_false,
    Bool.false_eq_true, if_false, ite_false]

/-- A `setVolume` call whose stream argument is truthy but reads a falsy
`AudioBase` member (absent, or `DEFAULT_VOLUME` when the default is 0) throws
the invalid-stream `TypeError` (for any `vol`). -/
theorem setVolumeAux_guard_throws (fuel : Nat) (w : AudioWorld) (t vol : JsVal)
    (ht : truthy t = true) (hm : memberTruthy (baseMember w (jsKeyString t)) = false) :
    setVolumeAux (fuel + 1) w t vol = (w, some (JsError.typeError "invalid stream type")) := by
  simp [setVolumeAux, ht, hm]

/-- A `setVolume` call with a falsy, non-`null` stream argument that is not in
the catalog skips the guard and crashes dereferencing `undefined`. -/
theorem setVolumeAux_undefined_access (fuel : Nat) (w : AudioWorld) (t : JsVal) (q : JsNum)
    (ht : truthy t = false) (hnn : isNullV t = false) (hl : lookupCat w t = none) :
    setVolumeAux (fuel + 1) w t (JsVal.jnum q) =
      (w, some (JsError.typeError "cannot read property readonly of undefined")) := by
  have hb := baseMember_falsy w t ht hnn hl
  simp [setVolumeAux, ht, hnn, hb, isNumberV, memberTruthy]

/-- The broadcast branch when all four target streams exist and none is
readonly: the clamped volume is applied to audio, playback, tts and ring, in
that order. -/
theorem setVolumeAux_null_ok (fuel : Nat) (w : AudioWorld) (q : JsNum)
    (a p t r : StreamDesc)
    (ha : lookupCat w (JsVal.jnum (JsNum.num (idAudio : ℚ))) = some a) (hra : a.readonly = false)
    (hp : lookupCat w (JsVal.jnum (JsNum.num (idPlayback : ℚ))) = some p) (hrp : p.readonly = false)
    (ht : lookupCat w (JsVal.jnum (JsNum.num (idTts : ℚ))) = some t) (hrt : t.readonly = false)
    (hr : lookupCat w (JsVal.jnum (JsNum.num (idRing : ℚ))) = some r) (hrr : r.readonly = false) :
    setVolumeAux (fuel + 2) w JsVal.null (JsVal.jnum q) =
      (storeVolume (storeVolume (storeVolume (storeVolume w a (jsClamp q)) p (jsClamp q))
        t (jsClamp q)) r (jsClamp q), none) := by
  have hba := baseMember_of_lookup w _ a ha
  have hbp := baseMember_of_lookup w _ p hp
  have hbt := baseMember_of_lookup w _ t ht
  have hbr := baseMember_of_lookup w _ r hr
  show setVolumeAux (Nat.succ (fuel + 1)) w JsVal.null (JsVal.jnum q) = _
  simp [setVolumeAux, truthy, isNumberV, isNullV, memberTruthy, baseMember_storeVolume,
    jsClamp_idem, hba, hra, hbp, hrp, hbt, hrt, hbr, hrr]

/-- The broadcast branch when audio and playback succeed and tts is readonly:
the first two applications persist, then the readonly error aborts the
broadcast (ring is never reached, nothing is rolled back). -/
theorem setVolumeAux_null_stops (fuel : Nat) (w : AudioWorld) (q : JsNum)
    (a p t : StreamDesc)
    (ha : lookupCat w (JsVal.jnum (JsNum.num (idAudio : ℚ))) = some a) (hra : a.readonly = false)
    (hp : lookupCat w (JsVal.jnum (JsNum.num (idPlayback : ℚ))) = some p) (hrp : p.readonly = false)
    (ht : lookupCat w (JsVal.jnum (JsNum.num (idTts : ℚ))) = some t) (hrt : t.readonly = true) :
    setVolumeAux (fuel + 2) w JsVal.null (JsVal.jnum q) =
      (storeVolume (storeVolume w a (jsClamp q)) p (jsClamp q),
       some (JsError.error ("stream type \"" ++ t.name ++ "\" is readonly"))) := by
  have hba := baseMember_of_lookup w _ a ha
  have hbp := baseMember_of_lookup w _ p hp
  have hbt := baseMember_of_lookup w _ t ht
  show setVolumeAux (Nat.succ (fuel + 1)) w JsVal.null (JsVal.jnum q) = _
  simp [setVolumeAux, truthy, isNumberV, isNullV, memberTruthy, baseMember_storeVolume,
    jsClamp_idem, hba, hra, hbp, hrp, hbt, hrt]

/-- The seven descriptors created by `init()`. -/
def audioDesc : StreamDesc := mkDesc idAudio "audio" false

def ttsDesc : StreamDesc := mkDesc idTts "tts" false

def ringDesc : StreamDesc := mkDesc idRing "ring" false

def voiceCallDesc : StreamDesc := mkDesc idVoiceCall "voiceCall" false

def playbackDesc : StreamDesc := mkDesc idPlayback "playback" false

def alarmDesc : StreamDesc := mkDesc idAlarm "alarm" false

def systemDesc : StreamDesc := mkDesc idSystem "system" true

/-- The catalog after `init()` (newest registration first). -/
def theCatalog : List (String × StreamDesc) :=
  [(idKey idSystem, systemDesc), (idKey idAlarm, alarmDesc), (idKey idPlayback, playbackDesc),
   (idKey idVoiceCall, voiceCallDesc), (idKey idRing, ringDesc), (idKey idTts, ttsDesc),
   (idKey idAudio, audioDesc)]

/-- Whatever the initial property store held, `init()` builds the same
seven-entry catalog. -/
theorem initAudio_catalog (props0 : List (String × Option Int)) :
    (initAudio props0).catalog = theCatalog := by
  simp [initAudio, runDefineStreams, defineStream_catalog, initialWorld, theCatalog,
    audioDesc, ttsDesc, ringDesc, voiceCallDesc, playbackDesc, alarmDesc, systemDesc]

/-- The curve loop when the backend accepts every point of the index list:
all points are forwarded in list order and no error is raised. -/
theorem applyCurve_all (accept : Nat → JsVal → Bool) (xs : List JsVal) (L : List Nat) :
    ∀ w : AudioWorld, (∀ i ∈ L, accept i (curveElt xs i) = true) →
    applyCurve accept xs w L =
      ({ w with nativeLog := (w.nativeLog ++
          L.map (fun i => NativeCall.setCurveForVolume i (curveElt xs i))) }, none) := by
  induction L with
  | nil => intro w _; simp [applyCurve]
  | cons i rest ih =>
    intro w h
    have hi : accept i (curveElt xs i) = true := h i (List.mem_cons_self i rest)
    simp only [applyCurve, hi, if_true]
    rw [ih _ (fun j hj => h j (List.mem_cons_of_mem i hj))]
    simp

/-- The curve loop when the backend accepts a prefix and rejects the next
point: the accepted points and the rejected call are all forwarded (no
rollback) and the loop stops with the range error. -/
theorem applyCurve_reject (accept : Nat → JsVal → Bool) (xs : List JsVal) (j : Nat)
    (hj : accept j (curveElt xs j) = false) (L2 : List Nat) :
    ∀ (L1 : List Nat) (w : AudioWorld), (∀ i ∈ L1, accept i (curveElt xs i) = true) →
    applyCurve accept xs w (L1 ++ j :: L2) =
      ({ w with nativeLog := (w.nativeLog ++
          (L1 ++ [j]).map (fun i => NativeCall.setCurveForVolume i (curveElt xs i))) },
       some (JsError.rangeError "out of range when set volume shape.")) := by
  intro L1
  induction L1 with
  | nil => intro w _; simp [applyCurve, hj]
  | cons i rest ih =>
    intro w h
    have hi : accept i (curveElt xs i) = true := h i (List.mem_cons_self i rest)
    simp only [List.cons_append, applyCurve, hi, if_true, List.append_eq]
    rw [ih _ (fun k hk => h k (List.mem_cons_of_mem i hk))]
    simp

/-- Splitting `List.range n` at an element `j < n`. -/
theorem range_split : ∀ n j : Nat, j < n → ∃ t, List.range n = List.range j ++ j :: t := by
  intro n
  induction n with
  | zero => intro j hj; omega
  | succ m ih =>
    intro j hj
    rcases Nat.lt_or_ge j m with h | h
    · obtain ⟨t, ht⟩ := ih j h
      refine ⟨t ++ [m], ?_⟩
      rw [List.range_succ, ht]
      simp
    · have hjm : j = m := by omega
      subst hjm
      exact ⟨[], by rw [List.range_succ]⟩

/-- The spec-modelled walk never raises: every node kind that JS property
access would throw on (`null`, `undefined`) is stopped at before indexing. -/
theorem walk_ok (segs : List String) : ∀ c : JVal, ∃ v, walk segs c = Except.ok v := by
  induction segs with
  | nil => intro c; exact ⟨c, rfl⟩
  | cons k rest ih =>
    intro c
    cases c with
    | undef => exact ⟨JVal.undef, rfl⟩
    | null => exact ⟨JVal.null, rfl⟩
    | bool b => exact ⟨JVal.undef, rfl⟩
    | num q => exact ⟨JVal.undef, rfl⟩
    | str s => exact ⟨JVal.undef, rfl⟩
    | obj fs => simpa [walk, jsIndex] using ih ((fieldLookup k fs).getD JVal.undef)
    | arr xs =>
      simpa [walk, jsIndex] using
        ih (match parseIndex k.data with
          | some i => (xs.get? i).getD JVal.undef
          | none => JVal.undef)

/-- `defineStream` leaves its key bound to the already-persisted value when
one parses, and to the module default otherwise. -/
theorem defineStream_resolves (w : AudioWorld) (id : Nat) (name : String) (ro : Bool) :
    lookupProp (defineStream w id name ro).props (mkDesc id name ro).key =
      some ((lookupProp w.props (mkDesc id name ro).key).getD w.defaultVolume) := by
  unfold defineStream
  split
  · next heq =>
      simp only [mkDesc, StreamDesc.key] at heq ⊢
      simp [heq, storeVolume, lookupProp_cons, toStored, jsFloor, StreamDesc.key, mkDesc]
  · next v heq =>
      simp only [mkDesc, StreamDesc.key] at heq ⊢
      simp [heq]

/-- After `init()`, the four broadcast targets and the system stream resolve
to their descriptors (the catalog is independent of the initial store). -/
theorem lookupCat_init_audio (props0 : List (String × Option Int)) :
    lookupCat (initAudio props0) (JsVal.jnum (JsNum.num (idAudio : ℚ))) = some audioDesc := by
  unfold lookupCat
  rw [initAudio_catalog]
  decide

theorem lookupCat_init_tts (props0 : List (String × Option Int)) :
    lookupCat (initAudio props0) (JsVal.jnum (JsNum.num (idTts : ℚ))) = some ttsDesc := by
  unfold lookupCat
  rw [initAudio_catalog]
  decide

theorem lookupCat_init_ring (props0 : List (String × Option Int)) :
    lookupCat (initAudio props0) (JsVal.jnum (JsNum.num (idRing : ℚ))) = some ringDesc := by
  unfold lookupCat
  rw [initAudio_catalog]
  decide

theorem lookupCat_init_playback (props0 : List (String × Option Int)) :
    lookupCat (initAudio props0) (JsVal.jnum (JsNum.num (idPlayback : ℚ))) = some playbackDesc := by
  unfold lookupCat
  rw [initAudio_catalog]
  decide

/-- After `init()`, every one of the seven catalog entries has a parseable
persisted volume, whatever the initial store contained. -/
theorem initAudio_props_ensured (props0 : List (String × Option Int)) :
    ∀ s ∈ theCatalog, (lookupProp (initAudio props0).props s.2.key).isSome = true := by
  intro s hs
  unfold initAudio runDefineStreams
  fin_cases hs
  · exact defineStream_ensures _ _ _ _
  · apply defineStream_isSome_mono
    exact defineStream_ensures _ _ _ _
  · apply defineStream_isSome_mono
    apply defineStream_isSome_mono
    exact defineStream_ensures _ _ _ _
  · apply defineStream_isSome_mono
    apply defineStream_isSome_mono
    apply defineStream_isSome_mono
    exact defineStream_ensures _ _ _ _
  · apply defineStream_isSome_mono
    apply defineStream_isSome_mono
    apply defineStream_isSome_mono
    apply defineStream_isSome_mono
    exact defineStream_ensures _ _ _ _
  · apply defineStream_isSome_mono
    apply defineStream_isSome_mono
    apply defineStream_isSome_mono
    apply defineStream_isSome_mono
    apply defineStream_isSome_mono
    exact defineStream_ensures _ _ _ _
  · apply defineStream_isSome_mono
    apply defineStream_isSome_mono
    apply defineStream_isSome_mono
    apply defineStream_isSome_mono
    apply defineStream_isSome_mono
    apply defineStream_isSome_mono
    exact defineStream_ensures _ _ _ _

/-- Projection form of `defineStream_noop`. -/
theorem defineStream_noop3 (w : AudioWorld) (id : Nat) (name : String) (ro : Bool)
    (h : (lookupProp w.props (mkDesc id name ro).key).isSome = true) :
    (defineStream w id name ro).props = w.props ∧
      (defineStream w id name ro).setLog = w.setLog ∧
      (defineStream w id name ro).nativeLog = w.nativeLog := by
  rw [defineStream_noop w id name ro h]
  exact ⟨rfl, rfl, rfl⟩

/-- After `init()`, each catalog entry's persisted value is the one already in
the store when it parsed, and the configured default (`DEFAULT_VOLUME`)
otherwise. -/
theorem initAudio_props_resolved (props0 : List (String × Option Int)) :
    ∀ s ∈ theCatalog, lookupProp (initAudio props0).props s.2.key =
      some ((lookupProp props0 s.2.key).getD ((lookupProp props0 "audio.volume.default").getD 60)) := by
  intro s hs
  fin_cases hs
  · -- system: defined last, nothing after it
    show lookupProp (initAudio props0).props (mkDesc idSystem "system" true).key = _
    unfold initAudio runDefineStreams
    rw [defineStream_resolves]
    rw [defineStream_preserves _ idAlarm "alarm" false (mkDesc idSystem "system" true).key (by decide)]
    rw [defineStream_preserves _ idPlayback "playback" false (mkDesc idSystem "system" true).key (by decide)]
    rw [defineStream_preserves _ idVoiceCall "voiceCall" false (mkDesc idSystem "system" true).key (by decide)]
    rw [defineStream_preserves _ idRing "ring" false (mkDesc idSystem "system" true).key (by decide)]
    rw [defineStream_preserves _ idTts "tts" false (mkDesc idSystem "system" true).key (by decide)]
    rw [defineStream_preserves _ idAudio "audio" false (mkDesc idSystem "system" true).key (by decide)]
    rw [defineStream_defaultVolume, defineStream_defaultVolume, defineStream_defaultVolume,
      defineStream_defaultVolume, defineStream_defaultVolume, defineStream_defaultVolume]
    rfl
  · -- alarm
    show lookupProp (initAudio props0).props (mkDesc idAlarm "alarm" false).key = _
    unfold initAudio runDefineStreams
    rw [defineStream_preserves _ idSystem "system" true (mkDesc idAlarm "alarm" false).key (by decide)]
    rw [defineStream_resolves]
    rw [defineStream_preserves _ idPlayback "playback" false (mkDesc idAlarm "alarm" false).key (by decide)]
    rw [defineStream_preserves _ idVoiceCall "voiceCall" false (mkDesc idAlarm "alarm" false).key (by decide)]
    rw [defineStream_preserves _ idRing "ring" false (mkDesc idAlarm "alarm" false).key (by decide)]
    rw [defineStream_preserves _ idTts "tts" false (mkDesc idAlarm "alarm" false).key (by decide)]
    rw [defineStream_preserves _ idAudio "audio" false (mkDesc idAlarm "alarm" false).key (by decide)]
    rw [defineStream_defaultVolume, defineStream_defaultVolume, defineStream_defaultVolume,
      defineStream_defaultVolume, defineStream_defaultVolume]
    rfl
  · -- playback
    show lookupProp (initAudio props0).props (mkDesc idPlayback "playback" false).key = _
    unfold initAudio runDefineStreams
    rw [defineStream_preserves _ idSystem "system" true (mkDesc idPlayback "playback" false).key (by decide)]
    rw [defineStream_preserves _ idAlarm "alarm" false (mkDesc idPlayback "playback" false).key (by decide)]
    rw [defineStream_resolves]
    rw [defineStream_preserves _ idVoiceCall "voiceCall" false (mkDesc idPlayback "playback" false).key (by decide)]
    rw [defineStream_preserves _ idRing "ring" false (mkDesc idPlayback "playback" false).key (by decide)]
    rw [defineStream_preserves _ idTts "tts" false (mkDesc idPlayback "playback" false).key (by decide)]
    rw [defineStream_preserves _ idAudio "audio" false (mkDesc idPlayback "playback" false).key (by decide)]
    rw [defineStream_defaultVolume, defineStream_defaultVolume, defineStream_defaultVolume,
      defineStream_defaultVolume]
    rfl
  · -- voiceCall
    show lookupProp (initAudio props0).props (mkDesc idVoiceCall "voiceCall" false).key = _
    unfold initAudio runDefineStreams
    rw [defineStream_preserves _ idSystem "system" true (mkDesc idVoiceCall "voiceCall" false).key (by decide)]
    rw [defineStream_preserves _ idAlarm "alarm" false (mkDesc idVoiceCall "voiceCall" false).key (by decide)]
    rw [defineStream_preserves _ idPlayback "playback" false (mkDesc idVoiceCall "voiceCall" false).key (by decide)]
    rw [defineStream_resolves]
    rw [defineStream_preserves _ idRing "ring" false (mkDesc idVoiceCall "voiceCall" false).key (by decide)]
    rw [defineStream_preserves _ idTts "tts" false (mkDesc idVoiceCall "voiceCall" false).key (by decide)]
    rw [defineStream_preserves _ idAudio "audio" false (mkDesc idVoiceCall "voiceCall" false).key (by decide)]
    rw [defineStream_defaultVolume, defineStream_defaultVolume, defineStream_defaultVolume]
    rfl
  · -- ring
    show lookupProp (initAudio props0).props (mkDesc idRing "ring" false).key = _
    unfold initAudio runDefineStreams
    rw [defineStream_preserves _ idSystem "system" true (mkDesc idRing "ring" false).key (by decide)]
    rw [defineStream_preserves _ idAlarm "alarm" false (mkDesc idRing "ring" false).key (by decide)]
    rw [defineStream_preserves _ idPlayback "playback" false (mkDesc idRing "ring" false).key (by decide)]
    rw [defineStream_preserves _ idVoiceCall "voiceCall" false (mkDesc idRing "ring" false).key (by decide)]
    rw [defineStream_resolves]
    rw [defineStream_preserves _ idTts "tts" false (mkDesc idRing "ring" false).key (by decide)]
    rw [defineStream_preserves _ idAudio "audio" false (mkDesc idRing "ring" false).key (by decide)]
    rw [defineStream_defaultVolume, defineStream_defaultVolume]
    rfl
  · -- tts
    show lookupProp (initAudio props0).props (mkDesc idTts "tts" false).key = _
    unfold initAudio runDefineStreams
    rw [defineStream_preserves _ idSystem "system" true (mkDesc idTts "tts" false).key (by decide)]
    rw [defineStream_preserves _ idAlarm "alarm" false (mkDesc idTts "tts" false).key (by decide)]
    rw [defineStream_preserves _ idPlayback "playback" false (mkDesc idTts "tts" false).key (by decide)]
    rw [defineStream_preserves _ idVoiceCall "voiceCall" false (mkDesc idTts "tts" false).key (by decide)]
    rw [defineStream_preserves _ idRing "ring" false (mkDesc idTts "tts" false).key (by decide)]
    rw [defineStream_resolves]
    rw [defineStream_preserves _ idAudio "audio" false (mkDesc idTts "tts" false).key (by decide)]
    rw [defineStream_defaultVolume]
    rfl
  · -- audio: defined first, everything after it
    show lookupProp (initAudio props0).props (mkDesc idAudio "audio" false).key = _
    unfold initAudio runDefineStreams
    rw [defineStream_preserves _ idSystem "system" true (mkDesc idAudio "audio" false).key (by decide)]
    rw [defineStream_preserves _ idAlarm "alarm" false (mkDesc idAudio "audio" false).key (by decide)]
    rw [defineStream_preserves _ idPlayback "playback" false (mkDesc idAudio "audio" false).key (by decide)]
    rw [defineStream_preserves _ idVoiceCall "voiceCall" false (mkDesc idAudio "audio" false).key (by decide)]
    rw [defineStream_preserves _ idRing "ring" false (mkDesc idAudio "audio" false).key (by decide)]
    rw [defineStream_preserves _ idTts "tts" false (mkDesc idAudio "audio" false).key (by decide)]
    rw [defineStream_resolves]
    rfl

/-- Re-running the seven `defineStream` calls on a world whose seven keys all
have parseable persisted values only re-registers catalog entries: the
property store, the `property.set` log and the native-call log are untouched. -/
theorem runDefineStreams_noop (w : AudioWorld)
    (h : ∀ s ∈ theCatalog, (lookupProp w.props s.2.key).isSome = true) :
    (runDefineStreams w).props = w.props ∧ (runDefineStreams w).setLog = w.setLog ∧
      (runDefineStreams w).nativeLog = w.nativeLog := by
  have h1 : (lookupProp w.props (mkDesc idAudio "audio" false).key).isSome = true :=
    h (idKey idAudio, audioDesc) (by simp [theCatalog])
  have h2 : (lookupProp w.props (mkDesc idTts "tts" false).key).isSome = true :=
    h (idKey idTts, ttsDesc) (by simp [theCatalog])
  have h3 : (lookupProp w.props (mkDesc idRing "ring" false).key).isSome = true :=
    h (idKey idRing, ringDesc) (by simp [theCatalog])
  have h4 : (lookupProp w.props (mkDesc idVoiceCall "voiceCall" false).key).isSome = true :=
    h (idKey idVoiceCall, voiceCallDesc) (by simp [theCatalog])
  have h5 : (lookupProp w.props (mkDesc idPlayback "playback" false).key).isSome = true :=
    h (idKey idPlayback, playbackDesc) (by simp [theCatalog])
  have h6 : (lookupProp w.props (mkDesc idAlarm "alarm" false).key).isSome = true :=
    h (idKey idAlarm, alarmDesc) (by simp [theCatalog])
  have h7 : (lookupProp w.props (mkDesc idSystem "system" true).key).isSome = true :=
    h (idKey idSystem, systemDesc) (by simp [theCatalog])
  obtain ⟨p1, s1, n1⟩ := defineStream_noop3 w idAudio "audio" false h1
  have t2 : (lookupProp (defineStream w idAudio "audio" false).props
      (mkDesc idTts "tts" false).key).isSome = true := by rw [p1]; exact h2
  obtain ⟨p2, s2, n2⟩ := defineStream_noop3 (defineStream w idAudio "audio" false)
    idTts "tts" false t2
  have t3 : (lookupProp (defineStream (defineStream w idAudio "audio" false)
      idTts "tts" false).props (mkDesc idRing "ring" false).key).isSome = true := by
    rw [p2, p1]; exact h3
  obtain ⟨p3, s3, n3⟩ := defineStream_noop3
    (defineStream (defineStream w idAudio "audio" false) idTts "tts" false)
    idRing "ring" false t3
  have t4 : (lookupProp (defineStream (defineStream (defineStream w idAudio "audio" false)
      idTts "tts" false) idRing "ring" false).props
      (mkDesc idVoiceCall "voiceCall" false).key).isSome = true := by
    rw [p3, p2, p1]; exact h4
  obtain ⟨p4, s4, n4⟩ := defineStream_noop3
    (defineStream (defineStream (defineStream w idAudio "audio" false) idTts "tts" false)
      idRing "ring" false)
    idVoiceCall "voiceCall" false t4
  have t5 : (lookupProp (defineStream (defineStream (defineStream (defineStream w
      idAudio "audio" false) idTts "tts" false) idRing "ring" false)
      idVoiceCall "voiceCall" false).props
      (mkDesc idPlayback "playback" false).key).isSome = true := by
    rw [p4, p3, p2, p1]; exact h5
  obtain ⟨p5, s5, n5⟩ := defineStream_noop3
    (defineStream (defineStream (defineStream (defineStream w idAudio "audio" false)
      idTts "tts" false) idRing "ring" false) idVoiceCall "voiceCall" false)
    idPlayback "playback" false t5
  have t6 : (lookupProp (defineStream (defineStream (defineStream (defineStream (defineStream w
      idAudio "audio" false) idTts "tts" false) idRing "ring" false)
      idVoiceCall "voiceCall" false) idPlayback "playback" false).props
      (mkDesc idAlarm "alarm" false).key).isSome = true := by
    rw [p5, p4, p3, p2, p1]; exact h6
  obtain ⟨p6, s6, n6⟩ := defineStream_noop3
    (defineStream (defineStream (defineStream (defineStream (defineStream w
      idAudio "audio" false) idTts "tts" false) idRing "ring" false)
      idVoiceCall "voiceCall" false) idPlayback "playback" false)
    idAlarm "alarm" false t6
  have t7 : (lookupProp (defineStream (defineStream (defineStream (defineStream (defineStream
      (defineStream w idAudio "audio" false) idTts "tts" false) idRing "ring" false)
      idVoiceCall "voiceCall" false) idPlayback "playback" false) idAlarm "alarm" false).props
      (mkDesc idSystem "system" true).key).isSome = true := by
    rw [p6, p5, p4, p3, p2, p1]; exact h7
  obtain ⟨p7, s7, n7⟩ := defineStream_noop3
    (defineStream (defineStream (defineStream (defineStream (defineStream
      (defineStream w idAudio "audio" false) idTts "tts" false) idRing "ring" false)
      idVoiceCall "voiceCall" false) idPlayback "playback" false) idAlarm "alarm" false)
    idSystem "system" true t7
  refine ⟨?_, ?_, ?_⟩
  · show (runDefineStreams w).props = w.props
    unfold runDefineStreams
    rw [p7, p6, p5, p4, p3, p2, p1]
  · show (runDefineStreams w).setLog = w.setLog
    unfold runDefineStreams
    rw [s7, s6, s5, s4, s3, s2, s1]
  · show (runDefineStreams w).nativeLog = w.nativeLog
    unfold runDefineStreams
    rw [n7, n6, n5, n4, n3, n2, n1]

/-!
## The claims
-/

/-- Claim C1: for every catalog stream that is not readonly and every numeric
volume `v`, `setVolume(stream, v)` persists to the property store and forwards
to the native backend the value `min(100, max(0, floor(v)))`: values above 100
clamp to 100, below 0 clamp to 0, and the result is floored before being
stored and forwarded. -/
theorem setVolume_clamp_floor_spec (w : AudioWorld) (t : JsVal) (s : StreamDesc) (v : JsNum)
    (hnn : isNullV t = false) (hl : lookupCat w t = some s) (hro : s.readonly = false) :
    setVolume2 w t (JsVal.jnum v) =
      ({ w with
          props := (s.key, toStored (jsMin (JsNum.num 100) (jsMax (JsNum.num 0) (jsFloor v)))) :: w.props,
          setLog := (w.setLog ++ [(s.key, jsMin (JsNum.num 100) (jsMax (JsNum.num 0) (jsFloor v)))]),
          nativeLog := (w.nativeLog ++
            [NativeCall.setStreamVolume s.id (jsMin (JsNum.num 100) (jsMax (JsNum.num 0) (jsFloor v)))]) },
       none) := by
  unfold setVolume2
  have e := setVolumeAux_known 1 w t s v hnn hl
  rw [hro] at e
  simp only [Bool.false_eq_true, if_false, ite_false] at e
  show setVolumeAux (1 + 1) w t (JsVal.jnum v) = _
  rw [e]
  simp only [storeVolume, jsFloor_jsClamp]

/-- Witness for C1: on a freshly initialized store, setting the tts stream to
150 persists and forwards `min(100, max(0, floor(150))) = 100`. -/
theorem setVolume_clamp_floor_witness :
    setVolume2 (initAudio []) (JsVal.jnum (JsNum.num 1)) (JsVal.jnum (JsNum.num 150)) =
      ({ initAudio [] with
          props := ("audio.volume.tts", some 100) :: (initAudio []).props,
          setLog := ((initAudio []).setLog ++ [("audio.volume.tts", JsNum.num 100)]),
          nativeLog := ((initAudio []).nativeLog ++ [NativeCall.setStreamVolume 1 (JsNum.num 100)]) },
       none) :=
  (setVolume_clamp_floor_spec (initAudio []) (JsVal.jnum (JsNum.num 1)) ttsDesc
    (JsNum.num 150) rfl (by decide) rfl).trans (by decide)

/-- Claim C3: for every numeric volume `v`, `setVolume` on a readonly stream
(such as the system stream) fails with the readonly policy error, and on that
failure nothing is persisted and nothing is forwarded: the world is returned
unchanged. -/
theorem setVolume_readonly_spec (w : AudioWorld) (t : JsVal) (s : StreamDesc) (v : JsNum)
    (hnn : isNullV t = false) (hl : lookupCat w t = some s) (hro : s.readonly = true) :
    setVolume2 w t (JsVal.jnum v) =
      (w, some (JsError.error ("stream type \"" ++ s.name ++ "\" is readonly"))) := by
  unfold setVolume2
  have e := setVolumeAux_known 1 w t s v hnn hl
  rw [hro] at e
  simp only [if_true, ite_true] at e
  show setVolumeAux (1 + 1) w t (JsVal.jnum v) = _
  rw [e]

/-- Witness for C3: setting volume 40 on the system stream of a freshly
initialized store fails with the readonly error and leaves the world
unchanged. -/
theorem setVolume_readonly_witness :
    setVolume2 (initAudio []) (JsVal.jnum (JsNum.num 6)) (JsVal.jnum (JsNum.num 40)) =
      (initAudio [], some (JsError.error "stream type \"system\" is readonly")) :=
  (setVolume_readonly_spec (initAudio []) (JsVal.jnum (JsNum.num 6)) systemDesc
    (JsNum.num 40) rfl (by decide) rfl).trans (by decide)

/-- Claim C9: `setVolume` with `vol = NaN` on a valid, non-readonly stream
does not fail the numeric type check: `NaN` survives the clamping comparisons
and `Math.floor`, a `NaN`-parsing value is persisted to the property store and
`NaN` is forwarded to the native backend. -/
theorem setVolume_nan_spec (w : AudioWorld) (t : JsVal) (s : StreamDesc)
    (hnn : isNullV t = false) (hl : lookupCat w t = some s) (hro : s.readonly = false) :
    setVolume2 w t (JsVal.jnum JsNum.nan) =
      ({ w with
          props := (s.key, none) :: w.props,
          setLog := (w.setLog ++ [(s.key, JsNum.nan)]),
          nativeLog := (w.nativeLog ++ [NativeCall.setStreamVolume s.id JsNum.nan]) },
       none) := by
  unfold setVolume2
  have e := setVolumeAux_known 1 w t s JsNum.nan hnn hl
  rw [hro] at e
  simp only [Bool.false_eq_true, if_false, ite_false] at e
  show setVolumeAux (1 + 1) w t (JsVal.jnum JsNum.nan) = _
  rw [e]
  simp only [storeVolume, jsClamp, jsFloor, toStored]

/-- Witness for C9: `setVolume(STREAM_RING, NaN)` on a freshly initialized
store succeeds, persists a `NaN`-parsing value under the ring key and forwards
`NaN` to the backend. -/
theorem setVolume_nan_witness :
    setVolume2 (initAudio []) (JsVal.jnum (JsNum.num 2)) (JsVal.jnum JsNum.nan) =
      ({ initAudio [] with
          props := ("audio.volume.ring", none) :: (initAudio []).props,
          setLog := ((initAudio []).setLog ++ [("audio.volume.ring", JsNum.nan)]),
          nativeLog := ((initAudio []).nativeLog ++ [NativeCall.setStreamVolume 2 JsNum.nan]) },
       none) :=
  (setVolume_nan_spec (initAudio []) (JsVal.jnum (JsNum.num 2)) ringDesc
    rfl (by decide) rfl).trans (by decide)

/-- Claim C10: a two-argument `setVolume` call whose stream argument is falsy
but not `null` (e.g. `false`, `''`, an explicit `undefined`) and not a catalog
key skips the "invalid stream type" guard (the guard tests truthiness first)
and instead crashes reading `readonly` off the missing entry — an unspecified
runtime type error, not the specified invalid-stream error. -/
theorem setVolume_falsy_stream_spec (w : AudioWorld) (t : JsVal) (v : JsNum)
    (ht : truthy t = false) (hnn : isNullV t = false) (hl : lookupCat w t = none) :
    setVolume2 w t (JsVal.jnum v) =
      (w, some (JsError.typeError "cannot read property readonly of undefined")) ∧
    (setVolume2 w t (JsVal.jnum v)).2 ≠ some (JsError.typeError "invalid stream type") := by
  unfold setVolume2
  have e := setVolumeAux_undefined_access 1 w t v ht hnn hl
  constructor
  · show setVolumeAux (1 + 1) w t (JsVal.jnum v) = _
    exact e
  · show (setVolumeAux (1 + 1) w t (JsVal.jnum v)).2 ≠ _
    rw [e]
    simp

/-- Witness for C10: `setVolume(false, 10)` on a freshly initialized store
throws the undefined-dereference type error, not the invalid-stream error. -/
theorem setVolume_falsy_stream_witness :
    setVolume2 (initAudio []) (JsVal.bool false) (JsVal.jnum (JsNum.num 10)) =
      (initAudio [], some (JsError.typeError "cannot read property readonly of undefined")) ∧
    (setVolume2 (initAudio []) (JsVal.bool false) (JsVal.jnum (JsNum.num 10))).2 ≠
      some (JsError.typeError "invalid stream type") :=
  setVolume_falsy_stream_spec (initAudio []) (JsVal.bool false) (JsNum.num 10)
    rfl rfl (by decide)

/-- Counterexample to claim C5 as stated: `'DEFAULT_VOLUME'` is not a key of
the stream catalog, yet `getVolume('DEFAULT_VOLUME')` does not fail with the
invalid-argument error — `AudioBase` carries the truthy `DEFAULT_VOLUME`
member (60 on a fresh store), which passes the `!AudioBase[stream]` guard, and
the read degrades to the sentinel `false`. -/
theorem getVolume_unknown_counterexample :
    lookupCat (initAudio []) (JsVal.str "DEFAULT_VOLUME") = none ∧
    getVolume (initAudio []) (JsVal.str "DEFAULT_VOLUME") = Except.ok (JsVal.bool false) := by
  exact ⟨by decide, rfl⟩

/-- Claim C5 (amended): `getVolume` with the stream argument omitted reads the
TTS stream; `getVolume` fails with the invalid-argument error exactly when the
`AudioBase` lookup of the identifier yields a falsy member — so not for
catalog streams, and also not for the truthy non-stream members
(`DEFAULT_VOLUME` with its nonzero default, inherited `Object.prototype`
properties), which pass the guard; and when the persisted string for the
resolved stream does not parse to a number, `getVolume` returns the sentinel
`false` instead of failing or returning a number. -/
theorem getVolume_spec :
    (∀ props0 : List (String × Option Int),
      getVolume (initAudio props0) JsVal.undef =
        getVolume (initAudio props0) (JsVal.jnum (JsNum.num (idTts : ℚ)))) ∧
    (∀ (w : AudioWorld) (t : JsVal), isUndefV t = false →
      memberTruthy (baseMember w (jsKeyString t)) = false →
      getVolume w t = Except.error (JsError.typeError "invalid stream type")) ∧
    (∀ (w : AudioWorld) (t : JsVal), isUndefV t = false →
      memberTruthy (baseMember w (jsKeyString t)) = true →
      getVolume w t ≠ Except.error (JsError.typeError "invalid stream type")) ∧
    (∀ (w : AudioWorld) (t : JsVal) (s : StreamDesc), isUndefV t = false →
      lookupCat w t = some s → lookupProp w.props s.key = none →
      getVolume w t = Except.ok (JsVal.bool false)) := by
  refine ⟨?_, ?_, ?_, ?_⟩
  · intro props0
    have hb := baseMember_of_lookup (initAudio props0) (JsVal.jnum (JsNum.num (idTts : ℚ)))
      ttsDesc (lookupCat_init_tts props0)
    unfold getVolume
    rw [hb]
    simp [isUndefV, memberTruthy]
  · intro w t hu hm
    unfold getVolume
    simp [hu, hm]
  · intro w t hu hm
    unfold getVolume
    simp only [hu, hm, Bool.true_eq_false, if_false, ite_false, if_true, ite_true]
    cases hb : baseMember w (jsKeyString t) with
    | none => rw [hb] at hm; simp [memberTruthy] at hm
    | some m =>
      cases m with
      | streamM s =>
        simp only [volumeOf]
        cases hlp : lookupProp w.props s.key <;> simp [hlp]
      | numberM n =>
        simp only [volumeOf]
        cases hlp : lookupProp w.props "undefined" <;> simp [hlp]
      | protoM =>
        simp only [volumeOf]
        cases hlp : lookupProp w.props "undefined" <;> simp [hlp]
  · intro w t s hu hl hp
    have hb := baseMember_of_lookup w t s hl
    unfold getVolume
    simp [hu, hb, memberTruthy, volumeOf, hp]

/-- Witness for C5: on a fresh store the omitted-stream read returns the tts
default 60; the unknown id 9999 reads no member and raises the invalid-stream
error; the truthy `DEFAULT_VOLUME` member does not raise it; and with an empty
property store the tts stream reads as the sentinel `false`. -/
theorem getVolume_witness :
    getVolume (initAudio []) JsVal.undef = Except.ok (JsVal.jnum (JsNum.num 60)) ∧
    getVolume (initAudio []) (JsVal.jnum (JsNum.num 9999)) =
      Except.error (JsError.typeError "invalid stream type") ∧
    getVolume (initAudio []) (JsVal.str "DEFAULT_VOLUME") ≠
      Except.error (JsError.typeError "invalid stream type") ∧
    getVolume { initAudio [] with props := [] } (JsVal.jnum (JsNum.num 1)) =
      Except.ok (JsVal.bool false) :=
  ⟨by rw [getVolume_spec.1 []]; rfl,
   getVolume_spec.2.1 (initAudio []) (JsVal.jnum (JsNum.num 9999)) rfl (by decide),
   getVolume_spec.2.2.1 (initAudio []) (JsVal.str "DEFAULT_VOLUME") rfl (by decide),
   getVolume_spec.2.2.2 { initAudio [] with props := [] } (JsVal.jnum (JsNum.num 1)) ttsDesc
     rfl (by decide) rfl⟩

/-- Claim C6: a one-argument `setVolume` call broadcasts the same volume to
exactly the four streams audio, playback, tts and ring, each through an
independent sub-call; and when a later sub-call fails (e.g. a readonly tts),
the volumes already persisted and forwarded by earlier sub-calls are not
rolled back. -/
theorem setVolume_broadcast_spec :
    (∀ (props0 : List (String × Option Int)) (v : JsNum),
      setVolume1 (initAudio props0) (JsVal.jnum v) =
        (storeVolume (storeVolume (storeVolume (storeVolume (initAudio props0)
          audioDesc (jsClamp v)) playbackDesc (jsClamp v)) ttsDesc (jsClamp v))
          ringDesc (jsClamp v), none)) ∧
    (∀ (w : AudioWorld) (v : JsNum) (a p t : StreamDesc),
      lookupCat w (JsVal.jnum (JsNum.num (idAudio : ℚ))) = some a → a.readonly = false →
      lookupCat w (JsVal.jnum (JsNum.num (idPlayback : ℚ))) = some p → p.readonly = false →
      lookupCat w (JsVal.jnum (JsNum.num (idTts : ℚ))) = some t → t.readonly = true →
      setVolume1 w (JsVal.jnum v) =
        (storeVolume (storeVolume w a (jsClamp v)) p (jsClamp v),
         some (JsError.error ("stream type \"" ++ t.name ++ "\" is readonly")))) := by
  constructor
  · intro props0 v
    unfold setVolume1
    show setVolumeAux (0 + 2) _ JsVal.null (JsVal.jnum v) = _
    exact setVolumeAux_null_ok 0 (initAudio props0) v audioDesc playbackDesc ttsDesc ringDesc
      (lookupCat_init_audio props0) rfl (lookupCat_init_playback props0) rfl
      (lookupCat_init_tts props0) rfl (lookupCat_init_ring props0) rfl
  · intro w v a p t ha hra hp hrp ht hrt
    unfold setVolume1
    show setVolumeAux (0 + 2) _ JsVal.null (JsVal.jnum v) = _
    exact setVolumeAux_null_stops 0 w v a p t ha hra hp hrp ht hrt

/-- A world whose catalog marks tts readonly, to exhibit the aborted
broadcast. -/
def wReadonlyTts : AudioWorld :=
  { catalog := [(idKey idAudio, audioDesc), (idKey idPlayback, playbackDesc),
      (idKey idTts, mkDesc idTts "tts" true)]
    defaultVolume := 60
    props := []
    setLog := []
    nativeLog := [] }

/-- Witness for C6: broadcasting 30 on a fresh store forwards 30 to the four
native ids in order with no error; on `wReadonlyTts` the broadcast persists
audio and playback, then stops at the readonly tts without rolling them
back. -/
theorem setVolume_broadcast_witness :
    ((setVolume1 (initAudio []) (JsVal.jnum (JsNum.num 30))).2 = none ∧
     (setVolume1 (initAudio []) (JsVal.jnum (JsNum.num 30))).1.nativeLog =
       ((initAudio []).nativeLog ++
         [NativeCall.setStreamVolume 0 (JsNum.num 30), NativeCall.setStreamVolume 4 (JsNum.num 30),
          NativeCall.setStreamVolume 1 (JsNum.num 30), NativeCall.setStreamVolume 2 (JsNum.num 30)])) ∧
    ((setVolume1 wReadonlyTts (JsVal.jnum (JsNum.num 30))).2 =
       some (JsError.error "stream type \"tts\" is readonly") ∧
     (setVolume1 wReadonlyTts (JsVal.jnum (JsNum.num 30))).1.props =
       [("audio.volume.playback", some 30), ("audio.volume.audio", some 30)]) :=
  ⟨by rw [setVolume_broadcast_spec.1 [] (JsNum.num 30)]; exact ⟨rfl, by decide⟩,
   by rw [setVolume_broadcast_spec.2 wReadonlyTts (JsNum.num 30) audioDesc playbackDesc
        (mkDesc idTts "tts" true) (by decide) rfl (by decide) rfl (by decide) rfl]
      exact ⟨by decide, by decide⟩⟩

/-- Claim C7: after `init()` every one of the 7 catalog entries has a
persisted volume (the already-stored value when it parsed, the configured
default otherwise), and running the initialization a second time writes no
persisted volume and changes no persisted value. -/
theorem init_persist_idempotent_spec (props0 : List (String × Option Int)) :
    (initAudio props0).catalog = theCatalog ∧
    (∀ s ∈ theCatalog, lookupProp (initAudio props0).props s.2.key =
      some ((lookupProp props0 s.2.key).getD
        ((lookupProp props0 "audio.volume.default").getD 60))) ∧
    (runDefineStreams (initAudio props0)).props = (initAudio props0).props ∧
    (runDefineStreams (initAudio props0)).setLog = (initAudio props0).setLog ∧
    (runDefineStreams (initAudio props0)).nativeLog = (initAudio props0).nativeLog := by
  refine ⟨initAudio_catalog props0, initAudio_props_resolved props0, ?_⟩
  exact runDefineStreams_noop (initAudio props0) (initAudio_props_ensured props0)

/-- Witness for C7: with a store holding a parseable tts volume 33, `init()`
keeps it, defaults ring to 60, and a second run leaves the store and the set
log unchanged. -/
theorem init_persist_idempotent_witness :
    lookupProp (initAudio [("audio.volume.tts", some 33)]).props "audio.volume.tts" = some 33 ∧
    lookupProp (initAudio [("audio.volume.tts", some 33)]).props "audio.volume.ring" = some 60 ∧
    (runDefineStreams (initAudio [("audio.volume.tts", some 33)])).props =
      (initAudio [("audio.volume.tts", some 33)]).props ∧
    (runDefineStreams (initAudio [("audio.volume.tts", some 33)])).setLog =
      (initAudio [("audio.volume.tts", some 33)]).setLog :=
  ⟨((init_persist_idempotent_spec [("audio.volume.tts", some 33)]).2.1
      (idKey idTts, ttsDesc) (by decide)).trans (by decide),
   ((init_persist_idempotent_spec [("audio.volume.tts", some 33)]).2.1
      (idKey idRing, ringDesc) (by decide)).trans (by decide),
   (init_persist_idempotent_spec [("audio.volume.tts", some 33)]).2.2.1,
   (init_persist_idempotent_spec [("audio.volume.tts", some 33)]).2.2.2.1⟩

/-- Claim C4: `setVolumeShaper(shaperFn)` invokes the shaper with 100 (the
result depends only on `shaperFn(100)`); a non-array result fails with the
structural error before forwarding anything; an array result forwards the 101
points `(i, curve[i])` for `i = 0..100` in increasing order; and when the
backend rejects a point, the call fails immediately with a range error and the
points already applied are not rolled back. -/
theorem setVolumeShaper_spec :
    (∀ (accept : Nat → JsVal → Bool) (w : AudioWorld) (f g : Int → ShaperRet),
      f 100 = g 100 → setVolumeShaper accept w f = setVolumeShaper accept w g) ∧
    (∀ (accept : Nat → JsVal → Bool) (w : AudioWorld) (f : Int → ShaperRet) (v : JsVal),
      f 100 = ShaperRet.nonArr v →
      setVolumeShaper accept w f =
        (w, some (JsError.error "shaper function should return an array with 100 elements."))) ∧
    (∀ (accept : Nat → JsVal → Bool) (w : AudioWorld) (f : Int → ShaperRet) (xs : List JsVal),
      f 100 = ShaperRet.arrRet xs →
      (∀ i, i < 101 → accept i (curveElt xs i) = true) →
      setVolumeShaper accept w f =
        ({ w with nativeLog := (w.nativeLog ++
            (List.range 101).map (fun i => NativeCall.setCurveForVolume i (curveElt xs i))) },
         none)) ∧
    (∀ (accept : Nat → JsVal → Bool) (w : AudioWorld) (f : Int → ShaperRet) (xs : List JsVal)
      (j : Nat), f 100 = ShaperRet.arrRet xs → j < 101 →
      (∀ i, i < j → accept i (curveElt xs i) = true) → accept j (curveElt xs j) = false →
      setVolumeShaper accept w f =
        ({ w with nativeLog := (w.nativeLog ++
            (List.range (j + 1)).map (fun i => NativeCall.setCurveForVolume i (curveElt xs i))) },
         some (JsError.rangeError "out of range when set volume shape."))) := by
  refine ⟨?_, ?_, ?_, ?_⟩
  · intro accept w f g h
    unfold setVolumeShaper
    rw [h]
  · intro accept w f v h
    unfold setVolumeShaper
    rw [h]
  · intro accept w f xs h hacc
    unfold setVolumeShaper
    rw [h]
    exact applyCurve_all accept xs (List.range 101) w
      (fun i hi => hacc i (List.mem_range.mp hi))
  · intro accept w f xs j h hj hacc hrej
    unfold setVolumeShaper
    rw [h]
    show applyCurve accept xs w (List.range 101) = _
    obtain ⟨tail, hsplit⟩ := range_split 101 j hj
    rw [hsplit,
      applyCurve_reject accept xs j hrej tail (List.range j) w
        (fun i hi => hacc i (List.mem_range.mp hi)),
      ← List.range_succ]

/-- Witness for C4: a shaper returning `null` fails structurally with no
forwarding; `LINEAR_RAMP` with an all-accepting backend succeeds; a backend
accepting only indices below 3 receives exactly the points 0..3 and the call
fails with the range error; and the result depends only on the shaper's value
at 100. -/
theorem setVolumeShaper_witness :
    setVolumeShaper (fun _ _ => true) (initialWorld []) (fun _ => ShaperRet.nonArr JsVal.null) =
      (initialWorld [],
       some (JsError.error "shaper function should return an array with 100 elements.")) ∧
    (setVolumeShaper (fun _ _ => true) (initialWorld []) LINEAR_RAMP).2 = none ∧
    setVolumeShaper (fun i _ => decide (i < 3)) (initialWorld []) LINEAR_RAMP =
      ({ initialWorld [] with nativeLog :=
          [NativeCall.setCurveForVolume 0 (JsVal.jnum (JsNum.num 0)),
           NativeCall.setCurveForVolume 1 (JsVal.jnum (JsNum.num 1)),
           NativeCall.setCurveForVolume 2 (JsVal.jnum (JsNum.num 2)),
           NativeCall.setCurveForVolume 3 (JsVal.jnum (JsNum.num 3))] },
       some (JsError.rangeError "out of range when set volume shape.")) ∧
    setVolumeShaper (fun _ _ => true) (initialWorld []) (fun len => LINEAR_RAMP len) =
      setVolumeShaper (fun _ _ => true) (initialWorld []) LINEAR_RAMP :=
  ⟨setVolumeShaper_spec.2.1 (fun _ _ => true) (initialWorld [])
     (fun _ => ShaperRet.nonArr JsVal.null) JsVal.null rfl,
   by rw [setVolumeShaper_spec.2.2.1 (fun _ _ => true) (initialWorld []) LINEAR_RAMP
        ((List.range 101).map (fun i => JsVal.jnum (JsNum.num (i : ℚ)))) (by decide)
        (fun i _ => rfl)],
   (setVolumeShaper_spec.2.2.2 (fun i _ => decide (i < 3)) (initialWorld []) LINEAR_RAMP
      ((List.range 101).map (fun i => JsVal.jnum (JsNum.num (i : ℚ)))) 3 (by decide)
      (by decide) (by decide) (by decide)).trans (by decide),
   setVolumeShaper_spec.1 (fun _ _ => true) (initialWorld [])
     (fun len => LINEAR_RAMP len) LINEAR_RAMP rfl⟩

/-!
Corroboration of the spec-modelled `get`/`pick`/`startsWith` against the
fifteen test fixtures in src/unnamed/part_000.
-/

example : get (JVal.obj [("foo", JVal.str "bar")]) (JVal.str "foo") JVal.undef =
    Except.ok (JVal.str "bar") := rfl

example : get (JVal.obj [("nested", JVal.obj [("foo", JVal.str "bar")])])
    (JVal.str "nested.foo") JVal.undef = Except.ok (JVal.str "bar") := rfl

example : get (JVal.obj []) (JVal.str "foo") (JVal.str "bar") = Except.ok (JVal.str "bar") := rfl

example : get (JVal.arr [JVal.str "foo", JVal.str "bar"]) (JVal.str "1") JVal.undef =
    Except.ok (JVal.str "bar") := rfl

example : get (JVal.arr [JVal.str "foo", JVal.str "bar"]) (JVal.num 1) JVal.undef =
    Except.ok (JVal.str "bar") := rfl

example : get (JVal.obj [("nested", JVal.obj [("foo", JVal.obj [("foo", JVal.str "bar")])])])
    (JVal.str "nested.bar.foo") JVal.undef = Except.ok JVal.undef := rfl

example : get (JVal.obj [("foo", JVal.num 1)]) (JVal.str "foo.bar") JVal.undef =
    Except.ok JVal.undef := rfl

example : get (JVal.obj [("foo", JVal.null)]) (JVal.str "foo.bar") JVal.undef =
    Except.ok JVal.null := rfl

example : pick (JVal.obj [("foo", JVal.str "bar"), ("bar", JVal.str "foo")]) ["foo"] =
    JVal.obj [("foo", JVal.str "bar")] := rfl

example : pick JVal.null ["foo"] = JVal.null := rfl

example : startsWith JVal.null JVal.undef = false := rfl

example : startsWith (JVal.obj []) JVal.undef = false := rfl

example : startsWith (JVal.str "foobar") (JVal.str "foo") = true := rfl

example : startsWith (JVal.str "foobar") (JVal.str "foobar") = true := rfl

example : startsWith (JVal.str "foobar") (JVal.str "bar") = false := rfl

/-- Claim C2: resolution that reaches an explicit `null` before all segments
are consumed returns `null`, not the default; a missing key or a scalar
encountered mid-path yields the `undefined`-class "no value", which is
replaced by the default; only the `undefined`-class "no value" triggers
default substitution — explicit `null` is never replaced. -/
theorem get_null_short_circuit_spec :
    (∀ (c p d : JVal), isNilJ c = false →
      (walk (pathSegments p) c = Except.ok JVal.null → get c p d = Except.ok JVal.null) ∧
      (walk (pathSegments p) c = Except.ok JVal.undef → get c p d = Except.ok d)) ∧
    (∀ (k : String) (rest : List String) (fs : List (String × JVal)),
      fieldLookup k fs = none → walk (k :: rest) (JVal.obj fs) = Except.ok JVal.undef) ∧
    (∀ (k : String) (rest : List String) (q : ℚ),
      walk (k :: rest) (JVal.num q) = Except.ok JVal.undef) ∧
    (∀ d : JVal,
      get (JVal.obj [("foo", JVal.null)]) (JVal.str "foo.bar") d = Except.ok JVal.null) := by
  refine ⟨?_, ?_, ?_, ?_⟩
  · intro c p d hnil
    constructor
    · intro hw
      simp [get, hnil, hw, isUndefJ]
    · intro hw
      simp [get, hnil, hw, isUndefJ]
  · intro k rest fs h
    simp only [walk, jsIndex, h, Option.getD_none]
    cases rest <;> rfl
  · intro k rest q
    rfl
  · intro d
    rfl

/-- Witness for C2: `get({foo: null}, 'foo.bar', 'dflt')` yields `null`, not
the default, while a missing middle key yields the default. -/
theorem get_null_short_circuit_witness :
    get (JVal.obj [("foo", JVal.null)]) (JVal.str "foo.bar") (JVal.str "dflt") =
      Except.ok JVal.null ∧
    get (JVal.obj [("nested", JVal.obj [("foo", JVal.str "bar")])])
      (JVal.str "nested.miss.foo") (JVal.str "dflt") = Except.ok (JVal.str "dflt") :=
  ⟨(get_null_short_circuit_spec.1 (JVal.obj [("foo", JVal.null)]) (JVal.str "foo.bar")
      (JVal.str "dflt") rfl).1 rfl,
   (get_null_short_circuit_spec.1 (JVal.obj [("nested", JVal.obj [("foo", JVal.str "bar")])])
      (JVal.str "nested.miss.foo") (JVal.str "dflt") rfl).2 rfl⟩

/-- Claim C8: `get(c, p, d)` never raises — for every container, including
`null` and scalars, it produces a value; a nil container yields the default;
`pick(null, keys)` returns `null` unchanged; and `startsWith` returns `false`
for every non-string value. -/
theorem util_no_raise_spec :
    (∀ c p d : JVal, ∃ v, get c p d = Except.ok v) ∧
    (∀ c p d : JVal, isNilJ c = true → get c p d = Except.ok d) ∧
    (∀ ks : List String, pick JVal.null ks = JVal.null) ∧
    (∀ v pre : JVal, isStringJ v = false → startsWith v pre = false) := by
  refine ⟨?_, ?_, ?_, ?_⟩
  · intro c p d
    by_cases h : isNilJ c
    · exact ⟨d, by simp [get, h]⟩
    · obtain ⟨v, hv⟩ := walk_ok (pathSegments p) c
      refine ⟨if isUndefJ v then d else v, ?_⟩
      simp [get, h, hv]
  · intro c p d h
    simp [get, h]
  · intro ks
    rfl
  · intro v pre h
    cases v <;> first | rfl | simp [isStringJ] at h

/-- Witness for C8: `get` on a `null` container returns the default without
raising, `get` on a scalar container produces a value, `pick(null, ['foo'])`
is `null`, and `startsWith({}, 'x')` is `false`. -/
theorem util_no_raise_witness :
    get JVal.null (JVal.str "foo") (JVal.str "d") = Except.ok (JVal.str "d") ∧
    (∃ v, get (JVal.num 5) (JVal.str "a.b") (JVal.bool true) = Except.ok v) ∧
    pick JVal.null ["foo"] = JVal.null ∧
    startsWith (JVal.obj []) (JVal.str "x") = false :=
  ⟨util_no_raise_spec.2.1 JVal.null (JVal.str "foo") (JVal.str "d") rfl,
   util_no_raise_spec.1 (JVal.num 5) (JVal.str "a.b") (JVal.bool true),
   util_no_raise_spec.2.2.1 ["foo"],
   util_no_raise_spec.2.2.2 (JVal.obj []) (JVal.str "x") rfl⟩

end Yoda
